import Mathlib

/-!
# Verification of the job-application-assistant matching / budgeting core

Shallow embedding of the relevant parts of the repository:

* `src/processing/rag_ranker.py` (`RAGRanker`): component match scores,
  `_calculate_match_score`, `rank_jobs`.
* `src/ai_generation/rag/project_selector.py` (`ProjectSelector`):
  `select_relevant_projects`, `_calculate_project_relevance`,
  `_generate_selection_reason`.
* `src/ai_generation/rag/page_optimizer.py` (`PageOptimizer`):
  the per-section optimizers, `_count_total_words`, `_aggressive_optimize`,
  `optimize_content` — once as a pure value-level model, and once over an
  explicit heap of Python objects (for the framing / non-mutation property).

Python floats are modelled as exact rationals (`ℚ`); the scores in the code
are ratios of small integers and fixed decimal constants, so the orderings
and comparisons proved here agree with the float computation except for
sub-ulp rounding, which none of the verified properties depend on.
External collaborators (vector store, embedding model, relational store)
are modelled as explicit parameters: an oracle for semantic similarity, an
`Except`-valued query result for the vector search, and an `Option`-valued
lookup for the relational store; a raised Python exception is modelled as
the `Except.error` / failure case.
-/

/-- Python `str.lower()`, on the character list (ASCII case mapping, the
same mapping as Lean's `Char.toLower`; Python additionally lowers
non-ASCII letters, which no verified property depends on).  Defined by
structural recursion so that concrete instances evaluate in the kernel. -/
def pyLower (s : String) : String :=
  String.mk (s.data.map Char.toLower)

/-- Helper for `pyWords`: split a character list on runs of whitespace,
dropping empty fragments; `cur` is the current word, reversed. -/
def pyWordsAux : List Char → List Char → List String
  | [], cur => if cur = [] then [] else [String.mk cur.reverse]
  | c :: cs, cur =>
    if c.isWhitespace then
      if cur = [] then pyWordsAux cs []
      else String.mk cur.reverse :: pyWordsAux cs []
    else pyWordsAux cs (c :: cur)

/-- Python `str.split()` with no argument: split on runs of whitespace and
drop empty fragments. -/
def pyWords (s : String) : List String :=
  pyWordsAux s.data []

/-- Helper for Python's substring test `a in b` on the underlying
character lists (the empty list is a substring of everything). -/
def pyInAux (needle : List Char) : List Char → Bool
  | [] => needle.isEmpty
  | c :: rest => needle.isPrefixOf (c :: rest) || pyInAux needle rest

/-- Python's substring containment test `needle in hay` for strings. -/
def pyIn (needle hay : String) : Bool :=
  pyInAux needle.data hay.data

/-- Python list slicing `l[:n]` for an `int` bound `n` (a negative bound
counts from the end of the list). -/
def pySliceTo {α : Type} (l : List α) (n : Int) : List α :=
  if 0 ≤ n then l.take n.toNat else l.take (l.length - (-n).toNat)

/-- Stable insertion (descending by `key`): the new element is placed
before the first existing element whose key is not larger.  Used to model
Python's stable `list.sort(key=..., reverse=True)`. -/
def insertDescBy {α : Type} (key : α → ℚ) (x : α) : List α → List α
  | [] => [x]
  | y :: ys => if key y ≤ key x then x :: y :: ys else y :: insertDescBy key x ys

/-- Stable sort, descending by `key`.  Python's `list.sort` is a stable
sort; a stable descending sort is uniquely determined by the key function,
so this insertion sort computes exactly the list produced by
`ranked.sort(key=..., reverse=True)` in the source. -/
def sortDescBy {α : Type} (key : α → ℚ) : List α → List α
  | [] => []
  | x :: xs => insertDescBy key x (sortDescBy key xs)

theorem length_insertDescBy {α : Type} (key : α → ℚ) (x : α) (l : List α) :
    (insertDescBy key x l).length = l.length + 1 := by
  induction l with
  | nil => simp [insertDescBy]
  | cons y ys ih =>
    simp only [insertDescBy]
    split
    · simp
    · simp [ih]

theorem length_sortDescBy {α : Type} (key : α → ℚ) (l : List α) :
    (sortDescBy key l).length = l.length := by
  induction l with
  | nil => rfl
  | cons x xs ih => simp [sortDescBy, length_insertDescBy, ih]

theorem mem_insertDescBy {α : Type} (key : α → ℚ) (x a : α) (l : List α) :
    a ∈ insertDescBy key x l ↔ a = x ∨ a ∈ l := by
  induction l with
  | nil => simp [insertDescBy]
  | cons y ys ih =>
    simp only [insertDescBy]
    split
    · simp
    · simp [ih]
      tauto

theorem mem_sortDescBy {α : Type} (key : α → ℚ) (a : α) (l : List α) :
    a ∈ sortDescBy key l ↔ a ∈ l := by
  induction l with
  | nil => simp [sortDescBy]
  | cons x xs ih => simp [sortDescBy, mem_insertDescBy, ih]

theorem pairwise_insertDescBy {α : Type} (key : α → ℚ) (x : α) (l : List α)
    (h : l.Pairwise (fun a b => key b ≤ key a)) :
    (insertDescBy key x l).Pairwise (fun a b => key b ≤ key a) := by
  induction l with
  | nil => simp [insertDescBy]
  | cons y ys ih =>
    simp only [insertDescBy]
    rcases List.pairwise_cons.mp h with ⟨hy, hys⟩
    split
    · rename_i hle
      refine List.pairwise_cons.mpr ⟨?_, h⟩
      intro z hz
      rcases List.mem_cons.mp hz with rfl | hz
      · exact hle
      · exact le_trans (hy z hz) hle
    · rename_i hgt
      push_neg at hgt
      refine List.pairwise_cons.mpr ⟨?_, ih hys⟩
      intro z hz
      rcases (mem_insertDescBy key x z ys).mp hz with rfl | hz
      · exact le_of_lt hgt
      · exact hy z hz

theorem pairwise_sortDescBy {α : Type} (key : α → ℚ) (l : List α) :
    (sortDescBy key l).Pairwise (fun a b => key b ≤ key a) := by
  induction l with
  | nil => simp [sortDescBy]
  | cons x xs ih => exact pairwise_insertDescBy key x _ ih

theorem filter_insertDescBy {α : Type} (key : α → ℚ) (x : α) (l : List α) (q : ℚ) :
    (insertDescBy key x l).filter (fun a => decide (key a = q)) =
      (if key x = q then [x] else []) ++ l.filter (fun a => decide (key a = q)) := by
  induction l with
  | nil =>
    by_cases hx : key x = q <;> simp [insertDescBy, List.filter_cons, hx]
  | cons y ys ih =>
    simp only [insertDescBy]
    split
    · by_cases hx : key x = q <;> by_cases hy : key y = q <;>
        simp [List.filter_cons, hx, hy]
    · rename_i hgt
      push_neg at hgt
      by_cases hx : key x = q
      · have hy : ¬ key y = q := by
          intro hyq
          rw [hx] at hgt
          rw [hyq] at hgt
          exact lt_irrefl q hgt
        simp [List.filter_cons, hx, hy, ih]
      · simp [List.filter_cons, hx, ih]

/-- Stability of the modelled sort: for every key value `q`, the elements
whose key equals `q` appear in the sorted list exactly in their input
order. -/
theorem filter_sortDescBy {α : Type} (key : α → ℚ) (l : List α) (q : ℚ) :
    (sortDescBy key l).filter (fun a => decide (key a = q)) =
      l.filter (fun a => decide (key a = q)) := by
  induction l with
  | nil => rfl
  | cons x xs ih =>
    simp only [sortDescBy, filter_insertDescBy, ih, List.filter_cons]
    by_cases hx : key x = q <;> simp [hx]

namespace RAGRanker

/-- The user-profile dictionary built by `RAGRanker._get_user_profile`
(the fields that the component scorers read).  A missing / `NULL` location
preference reaches `_calculate_location_match` as the empty string via
`user_profile.get('location_preference', '')`.  `preferred_job_types` is
`user_profile.get('preferences', {}).get('preferred_job_types', [])`. -/
structure UserProfileData where
  skills : List String
  location_preference : String
  preferred_job_types : List String
  languages : List String
deriving DecidableEq, Repr

/-- A job dictionary, restricted to the keys the ranker reads.
`language` is `Option` because the code reads it with a default
(`job.get('language', 'en')`); `posting_age_days` models
`(datetime.now() - posting_date).days`, `none` standing for a missing or
non-`datetime` `posting_date`. -/
structure Job where
  job_title : String
  company_name : String
  location : String
  job_type : String
  language : Option String
  required_skills : List String
  posting_age_days : Option Int
deriving DecidableEq, Repr

/-- A value stored in the `match_score_breakdown` dict: the component
entries are floats, the profile-not-found marker is a string. -/
inductive BVal where
  | num (q : ℚ)
  | str (s : String)
deriving DecidableEq, Repr

/-- The breakdown dict, as an insertion-ordered association list. -/
abbrev Breakdown := List (String × BVal)

/-- Python `round(x, 2)` as exact decimal rounding of the rational value.
(The float version rounds half-to-even on the binary representation; no
verified property depends on the rounded breakdown values.) -/
def round2 (q : ℚ) : ℚ := (round (q * 100) : ℤ) / 100

/-- Embeds `RAGRanker._calculate_skill_match`: case-insensitive overlap between
the profile's skills and the job's required skills, as sets. -/
def calculate_skill_match (user_profile : UserProfileData) (job : Job) : ℚ :=
  let user_skills := (user_profile.skills.map pyLower).toFinset
  let job_skills := (job.required_skills.map pyLower).toFinset
  if job_skills = ∅ then 1/2   -- Neutral if no skills listed
  else
    let overlap := user_skills ∩ job_skills
    let overlap_ratio := if job_skills = ∅ then 0
      else (overlap.card : ℚ) / (job_skills.card : ℚ)
    overlap_ratio

/-- Embeds `RAGRanker._calculate_location_match`.  Note the order of the checks
in the source: the missing-field neutral `0.5` is returned before the
`'remote' in job_location` check is ever reached. -/
def calculate_location_match (user_profile : UserProfileData) (job : Job) : ℚ :=
  let user_location := pyLower user_profile.location_preference
  let job_location := pyLower job.location
  if user_location = "" ∨ job_location = "" then 1/2   -- Neutral if missing
  else if pyIn "remote" job_location then 1            -- Remote jobs get high score
  else if pyIn user_location job_location || pyIn job_location user_location then 1
  else if ((pyWords user_location).toFinset ∩ (pyWords job_location).toFinset) ≠ ∅ then 7/10
  else 0

/-- Embeds `RAGRanker._calculate_job_type_match` (the source loop that returns
`1.0` on the first matching preference is equivalent to `List.any`). -/
def calculate_job_type_match (user_profile : UserProfileData) (job : Job) : ℚ :=
  let preferred_types := user_profile.preferred_job_types
  if preferred_types = [] then 1/2   -- Neutral if no preference
  else
    let job_type := pyLower job.job_type
    if (preferred_types.map pyLower).any
        (fun pref_type => pyIn pref_type job_type || pyIn job_type pref_type)
    then 1 else 0

/-- Embeds `RAGRanker._calculate_language_match`.  The second French spelling is
the literal (mojibake) byte sequence that appears in the source file. -/
def calculate_language_match (user_profile : UserProfileData) (job : Job) : ℚ :=
  let user_languages := user_profile.languages.map pyLower
  let job_language := pyLower (job.language.getD "en")
  if (user_languages.contains "english" || user_languages.contains "anglais")
      && job_language = "en" then 1
  else if (user_languages.contains "french" || user_languages.contains "franÃ§ais"
      || user_languages.contains "francais") && job_language = "fr" then 1
  else 1/2   -- Default to partial match

/-- Embeds `RAGRanker._calculate_freshness_score`: step function of posting age. -/
def calculate_freshness_score (job : Job) : ℚ :=
  match job.posting_age_days with
  | none => 1/2   -- Neutral if unknown
  | some age_days =>
    if age_days ≤ 1 then 1
    else if age_days ≤ 3 then 9/10
    else if age_days ≤ 7 then 4/5
    else if age_days ≤ 14 then 3/5
    else if age_days ≤ 30 then 2/5
    else 1/5

/-- Embeds `RAGRanker._calculate_past_success_boost`: the source always returns
`0.0` (documented extension point). -/
def calculate_past_success_boost (_job : Job) : ℚ := 0

/-- Result of `RAGRanker._calculate_match_score`. -/
structure MatchData where
  total_score : ℚ
  breakdown : Breakdown
deriving DecidableEq, Repr

/-- Embeds `RAGRanker._calculate_match_score`.  The profile lookup
(`_get_user_profile`) and the semantic-similarity component (which wraps
the external embedding calls and catches its own exceptions) are passed in
as parameters: `user_profile = none` is the profile-not-found path, and
`semantic_score` is whatever `_calculate_semantic_similarity` returned. -/
def calculate_match_score (user_profile : Option UserProfileData)
    (semantic_score : ℚ) (job : Job) : MatchData :=
  match user_profile with
  | none => { total_score := 0, breakdown := [("error", .str "User profile not found")] }
  | some p =>
    let skill_score := calculate_skill_match p job
    let location_score := calculate_location_match p job
    let job_type_score := calculate_job_type_match p job
    let language_score := calculate_language_match p job
    let freshness_score := calculate_freshness_score job
    let past_success_boost := calculate_past_success_boost job
    let total_score :=
      semantic_score * 30 + skill_score * 30 + location_score * 15 +
      job_type_score * 15 + language_score * 5 + freshness_score * 5 +
      past_success_boost
    { total_score := total_score
      breakdown :=
        [("semantic_similarity", .num (round2 semantic_score)),
         ("skill_match", .num (round2 skill_score)),
         ("location_match", .num (round2 location_score)),
         ("job_type_match", .num (round2 job_type_score)),
         ("language_match", .num (round2 language_score)),
         ("freshness", .num (round2 freshness_score)),
         ("past_success_boost", .num (round2 past_success_boost)),
         ("total", .num (round2 total_score))] }

/-- A job dict extended with `match_score` and `match_score_breakdown`
(the `job_with_score = {**job}` records built in `rank_jobs`). -/
structure ScoredJob where
  job : Job
  match_score : ℚ
  match_score_breakdown : Breakdown
deriving DecidableEq, Repr

/-- The body of the per-job loop in `RAGRanker.rank_jobs`: a successful
`_calculate_match_score` call yields the scored job, a raised exception is
caught and yields the job with zero score and empty breakdown. -/
def score_one (score : Job → Except String MatchData) (job : Job) : ScoredJob :=
  match score job with
  | .ok match_data =>
    { job := job, match_score := match_data.total_score
      match_score_breakdown := match_data.breakdown }
  | .error _ =>
    { job := job, match_score := 0, match_score_breakdown := [] }

/-- Python truthiness of the `top_n` argument (`if top_n:`): `None` and
`0` are both falsy. -/
def topNTruthy : Option Int → Bool
  | none => false
  | some n => n ≠ 0

/-- Embeds `RAGRanker.rank_jobs`: score every job (exceptions caught per job),
stable-sort by `match_score` descending, then truncate only when `top_n`
is truthy. -/
def rank_jobs (score : Job → Except String MatchData)
    (jobs : List Job) (top_n : Option Int) : List ScoredJob :=
  let ranked_jobs := jobs.map (score_one score)
  let ranked_jobs := sortDescBy (fun s => s.match_score) ranked_jobs
  if topNTruthy top_n then pySliceTo ranked_jobs (top_n.getD 0) else ranked_jobs

end RAGRanker

namespace RAGRanker

theorem calculate_skill_match_nonneg (p : UserProfileData) (j : Job) :
    0 ≤ calculate_skill_match p j := by
  simp only [calculate_skill_match]
  split
  · norm_num
  · positivity

theorem calculate_location_match_nonneg (p : UserProfileData) (j : Job) :
    0 ≤ calculate_location_match p j := by
  simp only [calculate_location_match]
  split
  · norm_num
  · split
    · norm_num
    · split
      · norm_num
      · split <;> norm_num

theorem calculate_job_type_match_nonneg (p : UserProfileData) (j : Job) :
    0 ≤ calculate_job_type_match p j := by
  simp only [calculate_job_type_match]
  split
  · norm_num
  · split <;> norm_num

theorem calculate_language_match_nonneg (p : UserProfileData) (j : Job) :
    0 ≤ calculate_language_match p j := by
  simp only [calculate_language_match]
  split
  · norm_num
  · split <;> norm_num

theorem calculate_freshness_score_nonneg (j : Job) :
    0 ≤ calculate_freshness_score j := by
  simp only [calculate_freshness_score]
  split
  · norm_num
  · split
    · norm_num
    · split
      · norm_num
      · split
        · norm_num
        · split
          · norm_num
          · split <;> norm_num

/-- The total computed by `_calculate_match_score` is non-negative as soon
as the semantic-similarity component is (which it is: the gateway returns
`(cos+1)/2 ∈ [0,1]`, and `0.0` on any failure). -/
theorem calculate_match_score_nonneg (user_profile : Option UserProfileData)
    (semantic_score : ℚ) (hsem : 0 ≤ semantic_score) (j : Job) :
    0 ≤ (calculate_match_score user_profile semantic_score j).total_score := by
  match user_profile with
  | none => simp [calculate_match_score]
  | some p =>
    simp only [calculate_match_score, calculate_past_success_boost]
    have h1 := calculate_skill_match_nonneg p j
    have h2 := calculate_location_match_nonneg p j
    have h3 := calculate_job_type_match_nonneg p j
    have h4 := calculate_language_match_nonneg p j
    have h5 := calculate_freshness_score_nonneg j
    positivity

end RAGRanker

/-- C4: `rank_jobs` (with no `top_n` truncation) returns the scored jobs
sorted by total score in non-increasing order; jobs with equal scores keep
their input order (stable sort); every total score is non-negative
(whether the job was scored by `_calculate_match_score` — with any profile
lookup result and any in-range semantic similarity — or zeroed by the
per-job exception handler); and an empty job list yields an empty list. -/
theorem rank_jobs_sorted_stable_nonneg
    (user_profile : Option RAGRanker.UserProfileData)
    (sem : RAGRanker.Job → ℚ)
    (hsem : ∀ j, 0 ≤ sem j)
    (fails : RAGRanker.Job → Bool) (errmsg : RAGRanker.Job → String)
    (jobs : List RAGRanker.Job) :
    let score := fun j => if fails j then Except.error (errmsg j)
      else Except.ok (RAGRanker.calculate_match_score user_profile (sem j) j)
    let out := RAGRanker.rank_jobs score jobs none
    out.Pairwise (fun a b => b.match_score ≤ a.match_score)
    ∧ (∀ q : ℚ, out.filter (fun s => decide (s.match_score = q)) =
        (jobs.map (RAGRanker.score_one score)).filter (fun s => decide (s.match_score = q)))
    ∧ (∀ s ∈ out, 0 ≤ s.match_score)
    ∧ (jobs = [] → out = []) := by
  intro score out
  have hout : out = sortDescBy (fun s => s.match_score) (jobs.map (RAGRanker.score_one score)) := by
    simp [out, RAGRanker.rank_jobs, RAGRanker.topNTruthy]
  refine ⟨?_, ?_, ?_, ?_⟩
  · rw [hout]; exact pairwise_sortDescBy _ _
  · intro q
    rw [hout]; exact filter_sortDescBy _ _ q
  · intro s hs
    rw [hout, mem_sortDescBy] at hs
    rcases List.mem_map.mp hs with ⟨j, _, rfl⟩
    simp only [RAGRanker.score_one, score]
    by_cases hf : fails j
    · simp [hf]
    · simp only [hf, if_neg, Bool.false_eq_true, ite_false]
      exact RAGRanker.calculate_match_score_nonneg user_profile (sem j) (hsem j) j
  · intro hjobs
    rw [hout, hjobs]
    rfl

/-- Witness for C4 at a concrete input: two concrete jobs, a present
profile, semantic similarity 0 everywhere, no failures; the output is
sorted non-increasingly. -/
theorem rank_jobs_sorted_stable_nonneg_witness :
    (RAGRanker.rank_jobs
      (fun j => if (fun (_ : RAGRanker.Job) => false) j
        then Except.error ((fun (_ : RAGRanker.Job) => "") j)
        else Except.ok (RAGRanker.calculate_match_score
          (some { skills := ["python"], location_preference := "paris",
                  preferred_job_types := [], languages := ["English"] })
          ((fun (_ : RAGRanker.Job) => (0:ℚ)) j) j))
      [{ job_title := "a", company_name := "c", location := "Paris",
         job_type := "", language := some "en", required_skills := ["python"],
         posting_age_days := some 2 },
       { job_title := "b", company_name := "d", location := "Lyon",
         job_type := "", language := some "fr", required_skills := [],
         posting_age_days := none }] none).Pairwise
      (fun a b => b.match_score ≤ a.match_score) :=
  (rank_jobs_sorted_stable_nonneg
    (some { skills := ["python"], location_preference := "paris",
            preferred_job_types := [], languages := ["English"] })
    (fun _ => 0) (fun _ => le_refl 0) (fun _ => false) (fun _ => "")
    [{ job_title := "a", company_name := "c", location := "Paris",
       job_type := "", language := some "en", required_skills := ["python"],
       posting_age_days := some 2 },
     { job_title := "b", company_name := "d", location := "Lyon",
       job_type := "", language := some "fr", required_skills := [],
       posting_age_days := none }]).1

/-- C5: a job whose match-score computation raises is caught by the
per-job `except` handler in `rank_jobs`: it stays in the output with
`match_score = 0` and an empty breakdown, and the batch is not aborted
(the output has one entry per input job). -/
theorem rank_jobs_error_isolated
    (score : RAGRanker.Job → Except String RAGRanker.MatchData)
    (jobs : List RAGRanker.Job) (j : RAGRanker.Job) (e : String)
    (hj : j ∈ jobs) (he : score j = .error e) :
    ({ job := j, match_score := 0, match_score_breakdown := [] } : RAGRanker.ScoredJob)
        ∈ RAGRanker.rank_jobs score jobs none
    ∧ (RAGRanker.rank_jobs score jobs none).length = jobs.length := by
  have hout : RAGRanker.rank_jobs score jobs none =
      sortDescBy (fun s => s.match_score) (jobs.map (RAGRanker.score_one score)) := by
    simp [RAGRanker.rank_jobs, RAGRanker.topNTruthy]
  constructor
  · rw [hout, mem_sortDescBy]
    refine List.mem_map.mpr ⟨j, hj, ?_⟩
    simp [RAGRanker.score_one, he]
  · rw [hout, length_sortDescBy, List.length_map]

/-- Witness for C5: one concrete job whose scorer always raises; the
zero-scored record is in the output and the batch has length 1. -/
theorem rank_jobs_error_isolated_witness :
    ({ job := { job_title := "x", company_name := "y", location := "",
                job_type := "", language := none, required_skills := [],
                posting_age_days := none },
       match_score := 0, match_score_breakdown := [] } : RAGRanker.ScoredJob)
        ∈ RAGRanker.rank_jobs (fun _ => .error "boom")
            [{ job_title := "x", company_name := "y", location := "",
               job_type := "", language := none, required_skills := [],
               posting_age_days := none }] none
    ∧ (RAGRanker.rank_jobs (fun _ => .error "boom")
        [{ job_title := "x", company_name := "y", location := "",
           job_type := "", language := none, required_skills := [],
           posting_age_days := none }] none).length = 1 :=
  rank_jobs_error_isolated (fun _ => .error "boom") _ _ "boom"
    (List.mem_singleton.mpr rfl) rfl

/-- A profile with no stated location preference (empty string, the value
`user_profile.get('location_preference', '')` yields for a missing or
empty field). -/
def profileNoLocation : RAGRanker.UserProfileData :=
  { skills := [], location_preference := "", preferred_job_types := [], languages := [] }

/-- A concrete job whose location contains "remote". -/
def jobRemote : RAGRanker.Job :=
  { job_title := "r", company_name := "c", location := "Remote", job_type := "",
    language := none, required_skills := [], posting_age_days := none }

/-- Counterexample to C3 as stated: a profile with no stated location
preference scored against a job located "Remote": the code returns the
missing-field neutral 0.5 — not 1.0 — because the missing-field check
precedes the remote check. -/
theorem location_match_remote_counterexample :
    pyIn "remote" (pyLower jobRemote.location) = true
    ∧ RAGRanker.calculate_location_match profileNoLocation jobRemote ≠ 1
    ∧ RAGRanker.calculate_location_match profileNoLocation jobRemote = 1/2 := by
  have h : RAGRanker.calculate_location_match profileNoLocation jobRemote = 1/2 := by
    simp only [RAGRanker.calculate_location_match]
    rw [if_pos (Or.inl (show pyLower profileNoLocation.location_preference = "" from rfl))]
  exact ⟨by decide, by rw [h]; norm_num, h⟩

/-- C3 (amended): for a job whose location contains "remote"
(case-insensitively), `locationMatch = 1.0` regardless of what the
profile's location preference is — provided both location fields are
non-empty; if either is empty the neutral 0.5 wins, because the
missing-field check runs first. -/
theorem location_match_remote
    (p : RAGRanker.UserProfileData) (j : RAGRanker.Job)
    (hp : pyLower p.location_preference ≠ "")
    (hj : pyLower j.location ≠ "")
    (hr : pyIn "remote" (pyLower j.location) = true) :
    RAGRanker.calculate_location_match p j = 1 := by
  simp only [RAGRanker.calculate_location_match]
  rw [if_neg (by tauto), if_pos hr]

/-- A profile located in Paris. -/
def profileParis : RAGRanker.UserProfileData :=
  { skills := [], location_preference := "Paris", preferred_job_types := [], languages := [] }

/-- A concrete job located "Remote - EU". -/
def jobRemoteEU : RAGRanker.Job :=
  { job_title := "r", company_name := "c", location := "Remote - EU", job_type := "",
    language := none, required_skills := [], posting_age_days := none }

/-- Witness for C3 (amended): profile located in Paris, job located
"Remote - EU". -/
theorem location_match_remote_witness :
    RAGRanker.calculate_location_match profileParis jobRemoteEU = 1 :=
  location_match_remote profileParis jobRemoteEU (by decide) (by decide) (by decide)

/-- A profile holding the skills Python and TensorFlow (scenario from the
spec). -/
def profileC6 : RAGRanker.UserProfileData :=
  { skills := ["Python", "TensorFlow"], location_preference := "",
    preferred_job_types := [], languages := [] }

/-- A job requiring Python, TensorFlow and Machine Learning (scenario from
the spec). -/
def jobC6 : RAGRanker.Job :=
  { job_title := "ml", company_name := "c", job_type := "", location := "",
    language := none, required_skills := ["Python", "TensorFlow", "Machine Learning"],
    posting_age_days := none }

/-- A job listing no required skills. -/
def jobNoSkills : RAGRanker.Job :=
  { job_title := "n", company_name := "c", job_type := "", location := "",
    language := none, required_skills := [], posting_age_days := none }

/-- Counterexample to C6 as stated: with an empty `requiredSkills` list
the inclusion `jobRequiredSkills ⊆ profileSkills` holds vacuously, yet
`skillMatch` is the neutral 0.5, not 1.0 — the "1.0 when ⊆" clause needs
the job's skill list to be non-empty. -/
theorem skill_match_subset_counterexample :
    ((jobNoSkills.required_skills.map pyLower).toFinset ⊆
        (profileC6.skills.map pyLower).toFinset)
    ∧ RAGRanker.calculate_skill_match profileC6 jobNoSkills ≠ 1
    ∧ RAGRanker.calculate_skill_match profileC6 jobNoSkills = 1/2 := by
  have h : RAGRanker.calculate_skill_match profileC6 jobNoSkills = 1/2 := by
    simp only [RAGRanker.calculate_skill_match]
    rw [if_pos (by decide)]
  refine ⟨by decide, by rw [h]; norm_num, h⟩

/-- C6 (amended): `skillMatch` is
`|profileSkills ∩ jobRequiredSkills| / |jobRequiredSkills|` after
case-insensitive lowering, is the neutral 0.5 when the job lists no
required skills, is 1.0 when the (non-empty) required set is contained in
the profile's skills, is 0.0 when the intersection is empty and the
required set is non-empty, and is 2/3 on the Python/TensorFlow scenario. -/
theorem skill_match_spec (p : RAGRanker.UserProfileData) (j : RAGRanker.Job) :
    let u := (p.skills.map pyLower).toFinset
    let r := (j.required_skills.map pyLower).toFinset
    (r = ∅ → RAGRanker.calculate_skill_match p j = 1/2)
    ∧ (r ≠ ∅ → RAGRanker.calculate_skill_match p j = ((u ∩ r).card : ℚ) / (r.card : ℚ))
    ∧ (r ≠ ∅ → r ⊆ u → RAGRanker.calculate_skill_match p j = 1)
    ∧ (r ≠ ∅ → u ∩ r = ∅ → RAGRanker.calculate_skill_match p j = 0)
    ∧ RAGRanker.calculate_skill_match profileC6 jobC6 = 2/3 := by
  intro u r
  have hval : r ≠ ∅ →
      RAGRanker.calculate_skill_match p j = ((u ∩ r).card : ℚ) / (r.card : ℚ) := by
    intro hr
    simp only [RAGRanker.calculate_skill_match]
    rw [if_neg hr, if_neg hr]
  refine ⟨?_, hval, ?_, ?_, ?_⟩
  · intro hr
    simp only [RAGRanker.calculate_skill_match]
    rw [if_pos hr]
  · intro hr hsub
    rw [hval hr]
    have hinter : u ∩ r = r := Finset.inter_eq_right.mpr hsub
    rw [hinter]
    have hcard : (r.card : ℚ) ≠ 0 := by
      simp only [ne_eq, Nat.cast_eq_zero, Finset.card_eq_zero]
      exact hr
    field_simp
  · intro hr hempty
    rw [hval hr, hempty]
    simp
  · have h3 : ((profileC6.skills.map pyLower).toFinset ∩
        (jobC6.required_skills.map pyLower).toFinset).card = 2 := by decide
    have h4 : ((jobC6.required_skills.map pyLower).toFinset).card = 3 := by decide
    simp only [RAGRanker.calculate_skill_match]
    rw [if_neg (by decide), if_neg (by decide), h3, h4]
    norm_num

/-- Witness for C6 (amended): a concrete non-empty required-skill set
contained in the profile's skills yields `skillMatch = 1`. -/
theorem skill_match_spec_witness :
    RAGRanker.calculate_skill_match profileC6
      { job_title := "ml", company_name := "c", job_type := "", location := "",
        language := none, required_skills := ["python"], posting_age_days := none } = 1 :=
  (skill_match_spec profileC6
      { job_title := "ml", company_name := "c", job_type := "", location := "",
        language := none, required_skills := ["python"], posting_age_days := none }).2.2.1
    (by decide) (by decide)

/-- C10: `rank_jobs` called with `top_n = 0` skips the truncation step
(Python `if top_n:` treats `0` like `None`) and returns the complete
ranked list — one output entry per input job. -/
theorem rank_jobs_topn_zero
    (score : RAGRanker.Job → Except String RAGRanker.MatchData)
    (jobs : List RAGRanker.Job) :
    RAGRanker.rank_jobs score jobs (some 0) = RAGRanker.rank_jobs score jobs none
    ∧ (RAGRanker.rank_jobs score jobs (some 0)).length = jobs.length := by
  have h : RAGRanker.rank_jobs score jobs (some 0) =
      sortDescBy (fun s => s.match_score) (jobs.map (RAGRanker.score_one score)) := by
    simp [RAGRanker.rank_jobs, RAGRanker.topNTruthy]
  constructor
  · rw [h]
    simp [RAGRanker.rank_jobs, RAGRanker.topNTruthy]
  · rw [h, length_sortDescBy, List.length_map]

namespace ProjectSelector

/-- A `UserProject` database record as read in `select_relevant_projects`
(`project.technologies or []` and `project.highlights or []` turn a `NULL`
column into the empty list, so plain lists suffice). -/
structure StoredProject where
  id : String
  title : String
  description : String
  technologies : List String
  highlights : List String
  github_url : String
  demo_url : String
deriving DecidableEq, Repr

/-- One entry of the list returned by
`vector_store.find_relevant_projects`: a project id plus the semantic
relevance computed from the nearest-neighbour distance. -/
structure RetrievedProject where
  project_id : String
  relevance : ℚ
deriving DecidableEq, Repr

/-- Result of `ProjectSelector._calculate_project_relevance`. -/
structure RelevanceBreakdown where
  total_score : ℚ
  semantic_score : ℚ
  tech_overlap : ℚ
  matching_techs : List String
  reason : String
deriving DecidableEq, Repr

/-- Embeds `ProjectSelector._generate_selection_reason`.  The source also
receives the project and job but reads neither. -/
def generate_selection_reason (semantic_score tech_overlap : ℚ)
    (matching_techs : List String) : String :=
  let reasons : List String :=
    (if semantic_score > 4/5 then ["highly relevant content"]
     else if semantic_score > 3/5 then ["relevant content"]
     else [])
    ++
    (if tech_overlap > 1/2 then
       ["uses " ++ String.intercalate ", " (matching_techs.take 3)]
     else if tech_overlap > 1/4 then
       ["shares " ++ toString matching_techs.length ++ " technologies"]
     else [])
  let reasons := if reasons = [] then ["related experience"] else reasons
  "Selected for " ++ String.intercalate " and " reasons

/-- Embeds `ProjectSelector._calculate_project_relevance`.  Python's lowered skill
set is modelled as the deduplicated lowered list (the source's loop that
re-adds lowered skills already present in the set is a no-op and is
omitted); the set intersection is the filter of that list by membership in
the project's lowered technologies — same elements, deterministic order. -/
def calculate_project_relevance (project : StoredProject)
    (job : RAGRanker.Job) (semantic_score : ℚ) : RelevanceBreakdown :=
  let job_skills := (job.required_skills.map pyLower).dedup
  let project_techs := (project.technologies.map pyLower).dedup
  let matching_techs := job_skills.filter (fun t => project_techs.contains t)
  let tech_overlap_ratio :=
    if job_skills = [] then 0
    else (matching_techs.length : ℚ) / (job_skills.length : ℚ)
  let total_score := semantic_score * (3/5) + tech_overlap_ratio * (2/5)
  { total_score := total_score
    semantic_score := semantic_score
    tech_overlap := tech_overlap_ratio
    matching_techs := matching_techs
    reason := generate_selection_reason semantic_score tech_overlap_ratio matching_techs }

/-- One entry of the list returned by `select_relevant_projects`. -/
structure ScoredProject where
  project : StoredProject
  relevance_score : ℚ
  semantic_similarity : ℚ
  tech_overlap : ℚ
  matching_techs : List String
  selection_reason : String
deriving DecidableEq, Repr

/-- Embeds `ProjectSelector.select_relevant_projects`.  The whole body runs in
one `try`: the vector-store query (together with everything else that can
raise, such as the `job['job_title']` access for the temp id) is the
`Except`-valued `query_result`, and the per-candidate database read is
`db_lookup` (a candidate whose record is missing is skipped with
`continue`).  Any raised exception — the `.error` case — yields `[]`. -/
def select_relevant_projects
    (query_result : Except String (List RetrievedProject))
    (db_lookup : String → Option StoredProject)
    (job : RAGRanker.Job) (max_projects : Nat) : List ScoredProject :=
  match query_result with
  | .error _ => []
  | .ok relevant_projects =>
    if relevant_projects = [] then []
    else
      let scored_projects := relevant_projects.filterMap (fun proj_data =>
        match db_lookup proj_data.project_id with
        | none => none
        | some project =>
          let rb := calculate_project_relevance project job proj_data.relevance
          some { project := project
                 relevance_score := rb.total_score
                 semantic_similarity := rb.semantic_score
                 tech_overlap := rb.tech_overlap
                 matching_techs := rb.matching_techs
                 selection_reason := rb.reason })
      let scored_projects := sortDescBy (fun s => s.relevance_score) scored_projects
      scored_projects.take max_projects

end ProjectSelector

/-- C7: `select_relevant_projects` returns at most `maxProjects` entries,
and the `relevance_score` values are non-increasing across the returned
list (sorted descending, then truncated). -/
theorem select_relevant_projects_sorted_capped
    (query_result : Except String (List ProjectSelector.RetrievedProject))
    (db_lookup : String → Option ProjectSelector.StoredProject)
    (job : RAGRanker.Job) (max_projects : Nat) :
    (ProjectSelector.select_relevant_projects query_result db_lookup job
        max_projects).length ≤ max_projects
    ∧ (ProjectSelector.select_relevant_projects query_result db_lookup job
        max_projects).Pairwise (fun a b => b.relevance_score ≤ a.relevance_score) := by
  rcases query_result with e | ps
  · exact ⟨by simp [ProjectSelector.select_relevant_projects],
      by simp [ProjectSelector.select_relevant_projects]⟩
  · by_cases hps : ps = []
    · subst hps
      exact ⟨by simp [ProjectSelector.select_relevant_projects],
        by simp [ProjectSelector.select_relevant_projects]⟩
    · simp only [ProjectSelector.select_relevant_projects, if_neg hps]
      constructor
      · rw [List.length_take]
        exact min_le_left _ _
      · exact List.Pairwise.sublist (List.take_sublist _ _) (pairwise_sortDescBy _ _)

/-- C8: any exception raised during the whole selection operation is
caught and yields the empty list (and so does an empty vector-store
result, e.g. when no projects are indexed for the user). -/
theorem select_relevant_projects_error_empty
    (db_lookup : String → Option ProjectSelector.StoredProject)
    (job : RAGRanker.Job) (max_projects : Nat) (e : String) :
    ProjectSelector.select_relevant_projects (.error e) db_lookup job max_projects = []
    ∧ ProjectSelector.select_relevant_projects (.ok []) db_lookup job max_projects = [] := by
  constructor
  · rfl
  · rfl

namespace PageOptimizer

/-- The contact sub-dict as read by `_optimize_contact` (every field via
`.get(key, '')`, so a missing key and an empty string coincide). -/
structure ContactInfo where
  name : String
  email : String
  phone : String
  location : String
  linkedin : String
deriving DecidableEq, Repr

/-- One experience entry.  `achievements` and `description` are `Option`
because `_optimize_experience` branches on key presence
(`if 'achievements' in exp: ... elif 'description' in exp: ...`). -/
structure ExpEntry where
  title : String
  company : String
  achievements : Option (List String)
  description : Option String
deriving DecidableEq, Repr

/-- One project entry as read by `_optimize_projects` (all fields via
`.get` with empty defaults). -/
structure ProjEntry where
  title : String
  technologies : List String
  highlights : List String
  description : String
deriving DecidableEq, Repr

/-- One education entry; `coursework` is `Option` because
`_optimize_education` tests `'coursework' in edu`. -/
structure EduEntry where
  degree : String
  institution : String
  year : String
  field : String
  coursework : Option (List String)
deriving DecidableEq, Repr

/-- The draft content dict handed to `optimize_content` (each section via
`.get` with an empty default) — and also the shape of the optimized
output, which mirrors it. -/
structure Content where
  contact : ContactInfo
  summary : String
  skills : List String
  experience : List ExpEntry
  projects : List ProjEntry
  education : List EduEntry
  languages : List String
deriving DecidableEq, Repr

/-- One row of `PageOptimizer.WORD_LIMITS`. -/
structure SectionLimits where
  contact : Nat
  summary : Nat
  skills : Nat
  experience : Nat
  projects : Nat
  education : Nat
  languages : Nat
  total : Nat
deriving DecidableEq, Repr

/-- Embeds `PageOptimizer.WORD_LIMITS` (callers only index it with 1 or 2). -/
def WORD_LIMITS (pages : Nat) : SectionLimits :=
  if pages = 1 then
    { contact := 30, summary := 50, skills := 40, experience := 150,
      projects := 100, education := 30, languages := 15, total := 415 }
  else
    { contact := 40, summary := 80, skills := 60, experience := 250,
      projects := 200, education := 60, languages := 25, total := 715 }

/-- Python string slicing `s[:n]` (by code point). -/
def strSlice (s : String) (n : Nat) : String :=
  String.mk (s.data.take n)

/-- Embeds `PageOptimizer._optimize_contact`: rebuilds the five fields
(passthrough); the word limit is unused by the source. -/
def optimize_contact (contact : ContactInfo) (_word_limit : Nat) : ContactInfo :=
  { name := contact.name, email := contact.email, phone := contact.phone,
    location := contact.location, linkedin := contact.linkedin }

/-- Embeds `PageOptimizer._optimize_summary`: word-truncate with an ellipsis
marker; an untruncated summary is returned verbatim. -/
def optimize_summary (summary : String) (word_limit : Nat) : String :=
  if summary = "" then ""
  else
    let words := pyWords summary
    if words.length ≤ word_limit then summary
    else String.intercalate " " (words.take word_limit) ++ "..."

/-- Embeds `PageOptimizer._optimize_skills`: keep the first 10 (1 page) or 15
(2 pages) skills; the word limit is unused by the source. -/
def optimize_skills (skills : List String) (_word_limit : Nat) (pages : Nat) : List String :=
  if skills = [] then []
  else
    let max_skills := if pages = 1 then 10 else 15
    skills.take max_skills

/-- Embeds `PageOptimizer._optimize_experience`: keep the first 3/5 roles; cap
achievement bullets at 3/5; cap a free-text description (only read when
there is no `achievements` key) at 50 words. -/
def optimize_experience (experience : List ExpEntry) (_word_limit : Nat)
    (pages : Nat) : List ExpEntry :=
  if experience = [] then []
  else
    let max_roles := if pages = 1 then 3 else 5
    let limited_exp := experience.take max_roles
    let max_bullets := if pages = 1 then 3 else 5
    limited_exp.map (fun exp =>
      match exp.achievements with
      | some achievements =>
        { exp with achievements := some (achievements.take max_bullets) }
      | none =>
        match exp.description with
        | some description =>
          let words := pyWords description
          if words.length > 50 then
            { exp with description := some (String.intercalate " " (words.take 50) ++ "...") }
          else exp
        | none => exp)

/-- Embeds `PageOptimizer._optimize_projects`: keep the first 2 (1 page) or 4
(2 pages) projects; technologies capped at 5, highlights at 2/3,
description at 100/200 characters. -/
def optimize_projects (projects : List ProjEntry) (_word_limit : Nat)
    (pages : Nat) : List ProjEntry :=
  if projects = [] then []
  else
    let max_projects := if pages = 1 then 2 else 4
    (projects.take max_projects).map (fun project =>
      { title := project.title
        technologies := project.technologies.take 5
        highlights := project.highlights.take (if pages = 1 then 2 else 3)
        description := if pages = 1 then strSlice project.description 100
          else strSlice project.description 200 })

/-- Embeds `PageOptimizer._optimize_education`: keep the first 2 (1 page) or 3
(2 pages) entries; coursework (capped at 3) only for 2-page output. -/
def optimize_education (education : List EduEntry) (_word_limit : Nat)
    (pages : Nat) : List EduEntry :=
  if education = [] then []
  else
    let max_degrees := if pages = 1 then 2 else 3
    (education.take max_degrees).map (fun edu =>
      { degree := edu.degree, institution := edu.institution,
        year := edu.year, field := edu.field,
        coursework := if pages = 2 then edu.coursework.map (fun c => c.take 3) else none })

/-- Embeds `PageOptimizer._optimize_languages`: keep the first 4, for any page
count; the word limit is unused by the source. -/
def optimize_languages (languages : List String) (_word_limit : Nat) : List String :=
  if languages = [] then []
  else languages.take 4

/-- Embeds `PageOptimizer._count_total_words` on the optimized content.  The
optimized contact dict always has its five keys and is therefore always
truthy, so the contact estimate of 20 words is always added; the
summary/skills truthiness checks are folded into the `0` cases. -/
def count_total_words (content : Content) : Nat :=
  20
  + (if content.summary = "" then 0 else (pyWords content.summary).length)
  + (if content.skills = [] then 0 else content.skills.length * 2)
  + (content.experience.map (fun exp =>
      (pyWords exp.title).length + (pyWords exp.company).length
      + (match exp.description with
         | some d => (pyWords d).length
         | none => 0)
      + ((exp.achievements.getD []).map (fun ach => (pyWords ach).length)).sum)).sum
  + (content.projects.map (fun proj =>
      (pyWords proj.title).length + (pyWords proj.description).length
      + proj.technologies.length * 2
      + (proj.highlights.map (fun h => (pyWords h).length)).sum)).sum
  + content.education.length * 15
  + content.languages.length * 2

/-- Embeds `PageOptimizer._aggressive_optimize`: cap experience to 2 roles,
projects to 1 (1-page only), summary to 30 words (no ellipsis), skills to
8 — in that order.  It receives the freshly built optimized dict and the
limits table (unused). -/
def aggressive_optimize (content : Content) (_limits : SectionLimits)
    (pages : Nat) : Content :=
  let content := if content.experience.length > 2 then
      { content with experience := content.experience.take 2 }
    else content
  let content := if pages = 1 ∧ content.projects.length > 1 then
      { content with projects := content.projects.take 1 }
    else content
  let content := if content.summary ≠ "" then
      { content with summary := String.intercalate " " ((pyWords content.summary).take 30) }
    else content
  let content := if content.skills.length > 8 then
      { content with skills := content.skills.take 8 }
    else content
  content

/-- Embeds `PageOptimizer.optimize_content`: clamp `target_pages` to {1,2}
(anything else becomes 1), run every per-section optimizer into a fresh
dict, then run the aggressive pass when the word-count estimate exceeds
the page ceiling. -/
def optimize_content (content : Content) (target_pages : Int)
    (include_projects : Bool) : Content :=
  let pages : Nat := if target_pages = 1 ∨ target_pages = 2 then target_pages.toNat else 1
  let limits := WORD_LIMITS pages
  let optimized : Content :=
    { contact := optimize_contact content.contact limits.contact
      summary := optimize_summary content.summary limits.summary
      skills := optimize_skills content.skills limits.skills pages
      experience := optimize_experience content.experience limits.experience pages
      projects := if include_projects then
          optimize_projects content.projects limits.projects pages
        else []
      education := optimize_education content.education limits.education pages
      languages := optimize_languages content.languages limits.languages }
  if count_total_words optimized > limits.total then
    aggressive_optimize optimized limits pages
  else optimized

end PageOptimizer

namespace PageOptimizer

theorem length_optimize_skills_one (s : List String) (w : Nat) :
    (optimize_skills s w 1).length ≤ 10 := by
  simp only [optimize_skills]
  split
  · simp
  · simp [List.length_take]

theorem length_optimize_experience_one (l : List ExpEntry) (w : Nat) :
    (optimize_experience l w 1).length ≤ 3 := by
  simp only [optimize_experience]
  split
  · simp
  · simp [List.length_take]

theorem bullets_optimize_experience_one (l : List ExpEntry) (w : Nat) :
    ∀ e ∈ optimize_experience l w 1, ∀ a, e.achievements = some a → a.length ≤ 3 := by
  intro e he a ha
  simp only [optimize_experience] at he
  split at he
  · simp at he
  · rcases List.mem_map.mp he with ⟨x, hx, rfl⟩
    cases hach : x.achievements with
    | some achievements =>
      simp only [hach] at ha
      cases ha
      simp [List.length_take]
    | none =>
      cases hdesc : x.description with
      | some d =>
        simp only [hach, hdesc] at ha
        split at ha <;> simp [hach] at ha
      | none =>
        simp only [hach, hdesc] at ha
        simp [hach] at ha

theorem length_optimize_projects_one (l : List ProjEntry) (w : Nat) :
    (optimize_projects l w 1).length ≤ 2 := by
  simp only [optimize_projects]
  split
  · simp
  · simp [List.length_take]

theorem length_optimize_education_one (l : List EduEntry) (w : Nat) :
    (optimize_education l w 1).length ≤ 2 := by
  simp only [optimize_education]
  split
  · simp
  · simp [List.length_take]

theorem length_optimize_languages (l : List String) (w : Nat) :
    (optimize_languages l w).length ≤ 4 := by
  simp only [optimize_languages]
  split
  · simp
  · simp [List.length_take]

theorem aggressive_optimize_experience_sublist (c : Content) (l : SectionLimits)
    (p : Nat) : (aggressive_optimize c l p).experience.Sublist c.experience := by
  simp only [aggressive_optimize]
  split <;> split <;> split <;> split <;>
    first
      | exact List.take_sublist _ _
      | exact List.Sublist.refl _

theorem aggressive_optimize_skills_sublist (c : Content) (l : SectionLimits)
    (p : Nat) : (aggressive_optimize c l p).skills.Sublist c.skills := by
  simp only [aggressive_optimize]
  split <;> split <;> split <;> split <;>
    first
      | exact List.take_sublist _ _
      | exact List.Sublist.refl _

theorem aggressive_optimize_projects_sublist (c : Content) (l : SectionLimits)
    (p : Nat) : (aggressive_optimize c l p).projects.Sublist c.projects := by
  simp only [aggressive_optimize]
  split <;> split <;> split <;> split <;>
    first
      | exact List.take_sublist _ _
      | exact List.Sublist.refl _

theorem aggressive_optimize_education_eq (c : Content) (l : SectionLimits)
    (p : Nat) : (aggressive_optimize c l p).education = c.education := by
  simp only [aggressive_optimize]
  split <;> split <;> split <;> split <;> rfl

theorem aggressive_optimize_languages_eq (c : Content) (l : SectionLimits)
    (p : Nat) : (aggressive_optimize c l p).languages = c.languages := by
  simp only [aggressive_optimize]
  split <;> split <;> split <;> split <;> rfl

end PageOptimizer

/-- A draft with two tiny projects and nothing else (its word-count
estimate is far below the 1-page ceiling, so the aggressive pass does not
run). -/
def contentTwoProjects : PageOptimizer.Content :=
  { contact := { name := "", email := "", phone := "", location := "", linkedin := "" }
    summary := ""
    skills := []
    experience := []
    projects := [{ title := "A", technologies := [], highlights := [], description := "" },
                 { title := "B", technologies := [], highlights := [], description := "" }]
    education := []
    languages := [] }

/-- Counterexample to C1 as stated: with `targetPages = 1` the first pass
keeps the first **2** projects (`max_projects = 2 if pages == 1 else 4`),
and the cut to 1 project happens only in the aggressive pass, which runs
only when the word estimate exceeds 415.  On `contentTwoProjects` the
optimizer returns 2 projects, refuting "at most 1 project". -/
theorem optimize_content_projects_counterexample :
    ¬ ((PageOptimizer.optimize_content contentTwoProjects 1 true).projects.length ≤ 1) := by
  decide

/-- C1 (amended): `optimize(content, targetPages=1, includeProjects=True)`
always yields at most 10 skills, at most 3 experience entries, at most 3
achievement bullets per role, at most **2** projects (1 only after the
aggressive pass), at most 2 education entries and at most 4 languages. -/
theorem optimize_content_one_page_limits (c : PageOptimizer.Content) :
    (PageOptimizer.optimize_content c 1 true).skills.length ≤ 10
    ∧ (PageOptimizer.optimize_content c 1 true).experience.length ≤ 3
    ∧ (∀ e ∈ (PageOptimizer.optimize_content c 1 true).experience,
        ∀ a, e.achievements = some a → a.length ≤ 3)
    ∧ (PageOptimizer.optimize_content c 1 true).projects.length ≤ 2
    ∧ (PageOptimizer.optimize_content c 1 true).education.length ≤ 2
    ∧ (PageOptimizer.optimize_content c 1 true).languages.length ≤ 4 := by
  refine ⟨?_, ?_, ?_, ?_, ?_, ?_⟩
  · simp only [PageOptimizer.optimize_content, Int.toNat_one]
    norm_num
    split
    · exact le_trans
        (List.Sublist.length_le (PageOptimizer.aggressive_optimize_skills_sublist _ _ _))
        (PageOptimizer.length_optimize_skills_one c.skills (PageOptimizer.WORD_LIMITS 1).skills)
    · exact PageOptimizer.length_optimize_skills_one c.skills (PageOptimizer.WORD_LIMITS 1).skills
  · simp only [PageOptimizer.optimize_content, Int.toNat_one]
    norm_num
    split
    · exact le_trans
        (List.Sublist.length_le (PageOptimizer.aggressive_optimize_experience_sublist _ _ _))
        (PageOptimizer.length_optimize_experience_one c.experience (PageOptimizer.WORD_LIMITS 1).experience)
    · exact PageOptimizer.length_optimize_experience_one c.experience (PageOptimizer.WORD_LIMITS 1).experience
  · simp only [PageOptimizer.optimize_content, Int.toNat_one]
    norm_num
    split
    · intro e he
      exact PageOptimizer.bullets_optimize_experience_one c.experience
        (PageOptimizer.WORD_LIMITS 1).experience e
        (List.Sublist.subset
          (PageOptimizer.aggressive_optimize_experience_sublist _ _ _) he)
    · intro e he
      exact PageOptimizer.bullets_optimize_experience_one c.experience
        (PageOptimizer.WORD_LIMITS 1).experience e he
  · simp only [PageOptimizer.optimize_content, Int.toNat_one]
    norm_num
    split
    · exact le_trans
        (List.Sublist.length_le (PageOptimizer.aggressive_optimize_projects_sublist _ _ _))
        (PageOptimizer.length_optimize_projects_one c.projects (PageOptimizer.WORD_LIMITS 1).projects)
    · exact PageOptimizer.length_optimize_projects_one c.projects (PageOptimizer.WORD_LIMITS 1).projects
  · simp only [PageOptimizer.optimize_content, Int.toNat_one]
    norm_num
    split
    · rw [PageOptimizer.aggressive_optimize_education_eq]
      exact PageOptimizer.length_optimize_education_one c.education (PageOptimizer.WORD_LIMITS 1).education
    · exact PageOptimizer.length_optimize_education_one c.education (PageOptimizer.WORD_LIMITS 1).education
  · simp only [PageOptimizer.optimize_content, Int.toNat_one]
    norm_num
    split
    · rw [PageOptimizer.aggressive_optimize_languages_eq]
      exact PageOptimizer.length_optimize_languages c.languages (PageOptimizer.WORD_LIMITS 1).languages
    · exact PageOptimizer.length_optimize_languages c.languages (PageOptimizer.WORD_LIMITS 1).languages

/-- A draft with one experience role carrying five achievement bullets. -/
def contentManyBullets : PageOptimizer.Content :=
  { contact := { name := "", email := "", phone := "", location := "", linkedin := "" }
    summary := ""
    skills := []
    experience := [{ title := "dev", company := "acme",
                     achievements := some ["a1", "a2", "a3", "a4", "a5"],
                     description := none }]
    projects := []
    education := []
    languages := [] }

/-- The optimized first role of `contentManyBullets` for a 1-page target. -/
def bulletEntryOne : PageOptimizer.ExpEntry :=
  { title := "dev", company := "acme",
    achievements := some ["a1", "a2", "a3"], description := none }

/-- Witness for C1 (amended) at a concrete input: the bullet cap of the
per-role clause, discharged on `contentManyBullets`. -/
theorem optimize_content_one_page_limits_witness :
    (["a1", "a2", "a3"] : List String).length ≤ 3 :=
  (optimize_content_one_page_limits contentManyBullets).2.2.1
    bulletEntryOne (by decide) ["a1", "a2", "a3"] (by decide)

/-- A draft whose only content is five languages. -/
def contentFiveLanguages : PageOptimizer.Content :=
  { contact := { name := "", email := "", phone := "", location := "", linkedin := "" }
    summary := ""
    skills := []
    experience := []
    projects := []
    education := []
    languages := ["de", "en", "fr", "it", "es"] }

/-- Counterexample to C2 as stated: the languages section keeps the first
4 entries regardless of the page count (`_optimize_languages` ignores the
page count entirely), so `targetPages=2` does **not** allow strictly more
items than `targetPages=1` for every section type. -/
theorem optimize_pages_strict_counterexample :
    ¬ ((PageOptimizer.optimize_content contentFiveLanguages 2 true).languages.length >
       (PageOptimizer.optimize_content contentFiveLanguages 1 true).languages.length) := by
  decide

/-- Fifteen one-word skills. -/
def skills15 : List String :=
  ["s1", "s2", "s3", "s4", "s5", "s6", "s7", "s8", "s9", "s10",
   "s11", "s12", "s13", "s14", "s15"]

/-- Five experience roles, the first carrying five achievement bullets. -/
def exp5 : List PageOptimizer.ExpEntry :=
  [{ title := "t1", company := "c1", achievements := some ["a1", "a2", "a3", "a4", "a5"],
     description := none },
   { title := "t2", company := "c2", achievements := none, description := none },
   { title := "t3", company := "c3", achievements := none, description := none },
   { title := "t4", company := "c4", achievements := none, description := none },
   { title := "t5", company := "c5", achievements := none, description := none }]

/-- Four projects. -/
def proj4 : List PageOptimizer.ProjEntry :=
  [{ title := "p1", technologies := [], highlights := [], description := "" },
   { title := "p2", technologies := [], highlights := [], description := "" },
   { title := "p3", technologies := [], highlights := [], description := "" },
   { title := "p4", technologies := [], highlights := [], description := "" }]

/-- Three education entries. -/
def edu3 : List PageOptimizer.EduEntry :=
  [{ degree := "d1", institution := "i1", year := "y1", field := "f1", coursework := none },
   { degree := "d2", institution := "i2", year := "y2", field := "f2", coursework := none },
   { degree := "d3", institution := "i3", year := "y3", field := "f3", coursework := none }]

/-- C2 (amended): the per-section optimizers allow at least as many — and,
given enough input items, strictly more — items for `targetPages=2` than
for `targetPages=1` for skills (15 vs 10), experience (5 vs 3 roles, 5 vs
3 bullets per role), projects (4 vs 2) and education (3 vs 2); the contact
and languages sections are identical for every page count (contact is a
passthrough, languages always keep the first 4), so "strictly more for
every section type" does not hold. -/
theorem optimize_pages_capacity :
    (∀ (s : List String) (w : Nat),
      (PageOptimizer.optimize_skills s w 1).length ≤ (PageOptimizer.optimize_skills s w 2).length)
    ∧ (∀ (l : List PageOptimizer.ExpEntry) (w : Nat),
      (PageOptimizer.optimize_experience l w 1).length ≤ (PageOptimizer.optimize_experience l w 2).length)
    ∧ (∀ (l : List PageOptimizer.ProjEntry) (w : Nat),
      (PageOptimizer.optimize_projects l w 1).length ≤ (PageOptimizer.optimize_projects l w 2).length)
    ∧ (∀ (l : List PageOptimizer.EduEntry) (w : Nat),
      (PageOptimizer.optimize_education l w 1).length ≤ (PageOptimizer.optimize_education l w 2).length)
    ∧ (∀ (l : List String) (w w' : Nat),
      PageOptimizer.optimize_languages l w = PageOptimizer.optimize_languages l w')
    ∧ (∀ (ct : PageOptimizer.ContactInfo) (w w' : Nat),
      PageOptimizer.optimize_contact ct w = PageOptimizer.optimize_contact ct w')
    ∧ (PageOptimizer.optimize_skills skills15 0 1).length <
        (PageOptimizer.optimize_skills skills15 0 2).length
    ∧ (PageOptimizer.optimize_experience exp5 0 1).length <
        (PageOptimizer.optimize_experience exp5 0 2).length
    ∧ ((PageOptimizer.optimize_experience exp5 0 1).map
        (fun e => (e.achievements.getD []).length)).head? = some 3
    ∧ ((PageOptimizer.optimize_experience exp5 0 2).map
        (fun e => (e.achievements.getD []).length)).head? = some 5
    ∧ (PageOptimizer.optimize_projects proj4 0 1).length <
        (PageOptimizer.optimize_projects proj4 0 2).length
    ∧ (PageOptimizer.optimize_education edu3 0 1).length <
        (PageOptimizer.optimize_education edu3 0 2).length := by
  refine ⟨?_, ?_, ?_, ?_, ?_, ?_, by decide, by decide, by decide, by decide,
    by decide, by decide⟩
  · intro s w
    simp only [PageOptimizer.optimize_skills]
    split
    · simp
    · simp [List.length_take]
  · intro l w
    simp only [PageOptimizer.optimize_experience]
    split
    · simp
    · simp [List.length_take]
  · intro l w
    simp only [PageOptimizer.optimize_projects]
    split
    · simp
    · simp [List.length_take]
  · intro l w
    simp only [PageOptimizer.optimize_education]
    split
    · simp
    · simp [List.length_take]
  · intro l w w'
    rfl
  · intro ct w w'
    rfl

namespace PageOptimizerHeap

/-- A Python value as seen by the page optimizer: strings are immutable
values, `None` is a value, and lists/dicts are references into the heap. -/
inductive PyVal where
  | vstr (s : String)
  | vnone
  | vref (a : Nat)
deriving DecidableEq, Repr

/-- A mutable Python object: a list of values or an insertion-ordered
dict. -/
inductive PyObj where
  | list (items : List PyVal)
  | dict (entries : List (String × PyVal))
deriving DecidableEq, Repr

/-- The object heap: the address of an object is its index, and
allocation appends.  Ill-typed reads below return benign defaults (empty
list / dict / string) instead of raising; no read ever writes, so the
framing theorem is unaffected. -/
abbrev Heap := List PyObj

/-- The object stored at address `a`, if any. -/
def objAt (h : Heap) (a : Nat) : Option PyObj :=
  h[a]?

/-- The number of allocated objects (the next fresh address). -/
def hlen (h : Heap) : Nat := h.length

/-- Allocate a new object, returning its (fresh) address. -/
def alloc (h : Heap) (o : PyObj) : Nat × Heap :=
  (hlen h, h ++ [o])

/-- Overwrite the object at an existing address. -/
def writeAt (h : Heap) (a : Nat) (o : PyObj) : Heap :=
  h.set a o

/-- The items of a list value (empty for anything else). -/
def listVal (h : Heap) (v : PyVal) : List PyVal :=
  match v with
  | .vref a =>
    match objAt h a with
    | some (.list items) => items
    | _ => []
  | _ => []

/-- The entries of a dict value (empty for anything else). -/
def dictVal (h : Heap) (v : PyVal) : List (String × PyVal) :=
  match v with
  | .vref a =>
    match objAt h a with
    | some (.dict entries) => entries
    | _ => []
  | _ => []

/-- The entries of the dict object at address `a`. -/
def dictEntriesAt (h : Heap) (a : Nat) : List (String × PyVal) :=
  match objAt h a with
  | some (.dict entries) => entries
  | _ => []

/-- The string carried by a value (empty for anything else). -/
def strVal (v : PyVal) : String :=
  match v with
  | .vstr s => s
  | _ => ""

/-- Dict read (`d[k]` as an `Option`). -/
def dget (d : List (String × PyVal)) (k : String) : Option PyVal :=
  (d.find? (fun p => p.1 = k)).map (fun p => p.2)

/-- Python `d.get(k, dflt)`. -/
def dgetD (d : List (String × PyVal)) (k : String) (dflt : PyVal) : PyVal :=
  (dget d k).getD dflt

/-- Python `k in d`. -/
def dmem (d : List (String × PyVal)) (k : String) : Bool :=
  (dget d k).isSome

/-- Pure key update on dict entries (`d[k] = v` applied to a copy):
overwrite in place when the key exists, else append. -/
def dset (d : List (String × PyVal)) (k : String) (v : PyVal) :
    List (String × PyVal) :=
  if dmem d k then d.map (fun p => if p.1 = k then (k, v) else p)
  else d ++ [(k, v)]

/-- Heap-level `obj[k] = v` on the dict object at address `a`. -/
def dictSetAt (h : Heap) (a : Nat) (k : String) (v : PyVal) : Heap :=
  match objAt h a with
  | some (.dict entries) => writeAt h a (.dict (dset entries k v))
  | _ => h

/-- Python truthiness of a value (`if v:`). -/
def truthy (h : Heap) (v : PyVal) : Bool :=
  match v with
  | .vstr s => s ≠ ""
  | .vnone => false
  | .vref a =>
    match objAt h a with
    | some (.list items) => items ≠ []
    | some (.dict entries) => entries ≠ []
    | none => false

/-- Embeds `_optimize_contact` over the heap: read the five fields with empty
defaults and allocate the fresh result dict. -/
def optimize_contactH (h : Heap) (contact : PyVal) : PyVal × Heap :=
  let d := dictVal h contact
  let r := alloc h (.dict
    [("name", dgetD d "name" (.vstr "")),
     ("email", dgetD d "email" (.vstr "")),
     ("phone", dgetD d "phone" (.vstr "")),
     ("location", dgetD d "location" (.vstr "")),
     ("linkedin", dgetD d "linkedin" (.vstr ""))])
  (.vref r.1, r.2)

/-- Embeds `_optimize_skills` over the heap: `skills[:max_skills]` allocates a
fresh list (as does the early `return []`). -/
def optimize_skillsH (h : Heap) (skills : PyVal) (pages : Nat) : PyVal × Heap :=
  let items := listVal h skills
  if items = [] then
    let r := alloc h (.list [])
    (.vref r.1, r.2)
  else
    let max_skills := if pages = 1 then 10 else 15
    let r := alloc h (.list (items.take max_skills))
    (.vref r.1, r.2)

/-- One iteration of the `_optimize_experience` loop: `opt_exp = {**exp}`
copies the entry, the bullet cap allocates a fresh achievements list, a
long description is word-truncated, and the copy is allocated. -/
def optimize_experience_oneH (pages : Nat) (h : Heap) (expv : PyVal) : PyVal × Heap :=
  let d := dictVal h expv
  let max_bullets := if pages = 1 then 3 else 5
  if dmem d "achievements" then
    let r := alloc h (.list ((listVal h (dgetD d "achievements" .vnone)).take max_bullets))
    let r2 := alloc r.2 (.dict (dset d "achievements" (.vref r.1)))
    (.vref r2.1, r2.2)
  else if dmem d "description" then
    let words := pyWords (strVal (dgetD d "description" (.vstr "")))
    if words.length > 50 then
      let r := alloc h (.dict (dset d "description"
        (.vstr (String.intercalate " " (words.take 50) ++ "..."))))
      (.vref r.1, r.2)
    else
      let r := alloc h (.dict d)
      (.vref r.1, r.2)
  else
    let r := alloc h (.dict d)
    (.vref r.1, r.2)

/-- The `_optimize_experience` loop over the (already role-capped) entry
list. -/
def optimize_experience_listH (pages : Nat) (h : Heap) :
    List PyVal → List PyVal × Heap
  | [] => ([], h)
  | e :: es =>
    let r := optimize_experience_oneH pages h e
    let rs := optimize_experience_listH pages r.2 es
    (r.1 :: rs.1, rs.2)

/-- Embeds `_optimize_experience` over the heap: cap the roles, run the loop,
and allocate the fresh result list. -/
def optimize_experienceH (h : Heap) (experience : PyVal) (pages : Nat) : PyVal × Heap :=
  let items := listVal h experience
  if items = [] then
    let r := alloc h (.list [])
    (.vref r.1, r.2)
  else
    let max_roles := if pages = 1 then 3 else 5
    let rs := optimize_experience_listH pages h (items.take max_roles)
    let r := alloc rs.2 (.list rs.1)
    (.vref r.1, r.2)

/-- One iteration of the `_optimize_projects` loop: fresh technology and
highlight lists (capped), character-capped description, fresh dict. -/
def optimize_projects_oneH (pages : Nat) (h : Heap) (pv : PyVal) : PyVal × Heap :=
  let d := dictVal h pv
  let rt := alloc h (.list ((listVal h (dgetD d "technologies" .vnone)).take 5))
  let rh := alloc rt.2 (.list ((listVal h (dgetD d "highlights" .vnone)).take
    (if pages = 1 then 2 else 3)))
  let desc := strVal (dgetD d "description" (.vstr ""))
  let desc := if pages = 1 then PageOptimizer.strSlice desc 100
    else PageOptimizer.strSlice desc 200
  let r := alloc rh.2 (.dict
    [("title", dgetD d "title" (.vstr "")),
     ("technologies", .vref rt.1),
     ("highlights", .vref rh.1),
     ("description", .vstr desc)])
  (.vref r.1, r.2)

/-- The `_optimize_projects` loop over the (already capped) entry list. -/
def optimize_projects_listH (pages : Nat) (h : Heap) :
    List PyVal → List PyVal × Heap
  | [] => ([], h)
  | p :: ps =>
    let r := optimize_projects_oneH pages h p
    let rs := optimize_projects_listH pages r.2 ps
    (r.1 :: rs.1, rs.2)

/-- Embeds `_optimize_projects` over the heap. -/
def optimize_projectsH (h : Heap) (projects : PyVal) (pages : Nat) : PyVal × Heap :=
  let items := listVal h projects
  if items = [] then
    let r := alloc h (.list [])
    (.vref r.1, r.2)
  else
    let max_projects := if pages = 1 then 2 else 4
    let rs := optimize_projects_listH pages h (items.take max_projects)
    let r := alloc rs.2 (.list rs.1)
    (.vref r.1, r.2)

/-- One iteration of the `_optimize_education` loop: the four base fields
always; coursework (fresh capped list) only for 2-page output. -/
def optimize_education_oneH (pages : Nat) (h : Heap) (ev : PyVal) : PyVal × Heap :=
  let d := dictVal h ev
  let base := [("degree", dgetD d "degree" (.vstr "")),
               ("institution", dgetD d "institution" (.vstr "")),
               ("year", dgetD d "year" (.vstr "")),
               ("field", dgetD d "field" (.vstr ""))]
  if pages = 2 && dmem d "coursework" then
    let rc := alloc h (.list ((listVal h (dgetD d "coursework" .vnone)).take 3))
    let r := alloc rc.2 (.dict (base ++ [("coursework", .vref rc.1)]))
    (.vref r.1, r.2)
  else
    let r := alloc h (.dict base)
    (.vref r.1, r.2)

/-- The `_optimize_education` loop over the (already capped) entry list. -/
def optimize_education_listH (pages : Nat) (h : Heap) :
    List PyVal → List PyVal × Heap
  | [] => ([], h)
  | e :: es =>
    let r := optimize_education_oneH pages h e
    let rs := optimize_education_listH pages r.2 es
    (r.1 :: rs.1, rs.2)

/-- Embeds `_optimize_education` over the heap. -/
def optimize_educationH (h : Heap) (education : PyVal) (pages : Nat) : PyVal × Heap :=
  let items := listVal h education
  if items = [] then
    let r := alloc h (.list [])
    (.vref r.1, r.2)
  else
    let max_degrees := if pages = 1 then 2 else 3
    let rs := optimize_education_listH pages h (items.take max_degrees)
    let r := alloc rs.2 (.list rs.1)
    (.vref r.1, r.2)

/-- Embeds `_optimize_languages` over the heap. -/
def optimize_languagesH (h : Heap) (languages : PyVal) : PyVal × Heap :=
  let items := listVal h languages
  if items = [] then
    let r := alloc h (.list [])
    (.vref r.1, r.2)
  else
    let r := alloc h (.list (items.take 4))
    (.vref r.1, r.2)

/-- Embeds `_count_total_words` over the heap: a pure read of the optimized dict
at address `content`. -/
def count_total_wordsH (h : Heap) (content : Nat) : Nat :=
  let d := dictEntriesAt h content
  (if truthy h (dgetD d "contact" .vnone) then 20 else 0)
  + (if truthy h (dgetD d "summary" .vnone) then
      (pyWords (strVal (dgetD d "summary" .vnone))).length else 0)
  + (if truthy h (dgetD d "skills" .vnone) then
      (listVal h (dgetD d "skills" .vnone)).length * 2 else 0)
  + ((listVal h (dgetD d "experience" .vnone)).map (fun ev =>
      let ed := dictVal h ev
      (pyWords (strVal (dgetD ed "title" (.vstr "")))).length
      + (pyWords (strVal (dgetD ed "company" (.vstr "")))).length
      + (if dmem ed "description" then
          (pyWords (strVal (dgetD ed "description" .vnone))).length else 0)
      + ((listVal h (dgetD ed "achievements" .vnone)).map
          (fun av => (pyWords (strVal av)).length)).sum)).sum
  + ((listVal h (dgetD d "projects" .vnone)).map (fun pv =>
      let pd := dictVal h pv
      (pyWords (strVal (dgetD pd "title" (.vstr "")))).length
      + (pyWords (strVal (dgetD pd "description" (.vstr "")))).length
      + (listVal h (dgetD pd "technologies" .vnone)).length * 2
      + ((listVal h (dgetD pd "highlights" .vnone)).map
          (fun hv => (pyWords (strVal hv)).length)).sum)).sum
  + (listVal h (dgetD d "education" .vnone)).length * 15
  + (listVal h (dgetD d "languages" .vnone)).length * 2

/-- Embeds `_aggressive_optimize` over the heap: the only in-place dict writes of
the whole optimizer, all targeting the freshly built optimized dict at
address `content` (each slice allocates a fresh list first). -/
def aggressive_optimizeH (h : Heap) (content : Nat) (pages : Nat) : Heap :=
  let expl := listVal h (dgetD (dictEntriesAt h content) "experience" .vnone)
  let h1 := if expl.length > 2 then
      let r := alloc h (.list (expl.take 2))
      dictSetAt r.2 content "experience" (.vref r.1)
    else h
  let projl := listVal h1 (dgetD (dictEntriesAt h1 content) "projects" .vnone)
  let h2 := if pages = 1 ∧ projl.length > 1 then
      let r := alloc h1 (.list (projl.take 1))
      dictSetAt r.2 content "projects" (.vref r.1)
    else h1
  let sv := dgetD (dictEntriesAt h2 content) "summary" .vnone
  let h3 := if truthy h2 sv then
      dictSetAt h2 content "summary"
        (.vstr (String.intercalate " " ((pyWords (strVal sv)).take 30)))
    else h2
  let skl := listVal h3 (dgetD (dictEntriesAt h3 content) "skills" .vnone)
  let h4 := if skl.length > 8 then
      let r := alloc h3 (.list (skl.take 8))
      dictSetAt r.2 content "skills" (.vref r.1)
    else h3
  h4

/-- Embeds `optimize_content` over the heap: clamp the page count, allocate the
fresh `optimized` dict, fill the seven sections (every section value is a
freshly allocated object), and run the aggressive pass in place on the
fresh dict when the estimate exceeds the ceiling.  Returns the reference
to the optimized dict together with the final heap. -/
def optimize_contentH (h : Heap) (content : PyVal) (target_pages : Int)
    (include_projects : Bool) : PyVal × Heap :=
  let pages : Nat := if target_pages = 1 ∨ target_pages = 2 then target_pages.toNat else 1
  let limits := PageOptimizer.WORD_LIMITS pages
  let d := dictVal h content
  let ro := alloc h (.dict [])
  let opt := ro.1
  let rc := optimize_contactH ro.2 (dgetD d "contact" .vnone)
  let h1 := dictSetAt rc.2 opt "contact" rc.1
  let sv := PageOptimizer.optimize_summary (strVal (dgetD d "summary" (.vstr ""))) limits.summary
  let h2 := dictSetAt h1 opt "summary" (.vstr sv)
  let rs := optimize_skillsH h2 (dgetD d "skills" .vnone) pages
  let h3 := dictSetAt rs.2 opt "skills" rs.1
  let re := optimize_experienceH h3 (dgetD d "experience" .vnone) pages
  let h4 := dictSetAt re.2 opt "experience" re.1
  let rp := if include_projects then optimize_projectsH h4 (dgetD d "projects" .vnone) pages
    else
      let r := alloc h4 (.list [])
      (.vref r.1, r.2)
  let h5 := dictSetAt rp.2 opt "projects" rp.1
  let rd := optimize_educationH h5 (dgetD d "education" .vnone) pages
  let h6 := dictSetAt rd.2 opt "education" rd.1
  let rl := optimize_languagesH h6 (dgetD d "languages" .vnone)
  let h7 := dictSetAt rl.2 opt "languages" rl.1
  let total_words := count_total_wordsH h7 opt
  let h8 := if total_words > limits.total then aggressive_optimizeH h7 opt pages else h7
  (.vref opt, h8)

end PageOptimizerHeap

namespace PageOptimizerHeap

/-- Relation `Frame n h h'`: heap `h'` is an evolution of `h` that has at least `n`
objects and agrees with `h` on every address below `n`.  The framing
results say every heap produced by the optimizer is in this relation to
the entry heap with `n` = number of pre-existing objects: the caller's
objects are never mutated. -/
def Frame (n : Nat) (h h' : Heap) : Prop :=
  n ≤ hlen h' ∧ ∀ a, a < n → objAt h' a = objAt h a

theorem frame_rfl (n : Nat) (h : Heap) (hn : n ≤ hlen h) : Frame n h h :=
  ⟨hn, fun _ _ => rfl⟩

theorem frame_trans {n : Nat} {h1 h2 h3 : Heap}
    (f1 : Frame n h1 h2) (f2 : Frame n h2 h3) : Frame n h1 h3 :=
  ⟨f2.1, fun a ha => (f2.2 a ha).trans (f1.2 a ha)⟩

theorem frame_alloc (n : Nat) (h : Heap) (o : PyObj) (hn : n ≤ hlen h) :
    Frame n h (alloc h o).2 := by
  simp only [hlen] at hn
  constructor
  · simp only [alloc, hlen, List.length_append, List.length_singleton]
    omega
  · intro a ha
    simp only [alloc, objAt]
    exact List.getElem?_append_left (by omega)

theorem frame_dictSetAt (n : Nat) (h : Heap) (b : Nat) (k : String) (v : PyVal)
    (hn : n ≤ hlen h) (hb : n ≤ b) : Frame n h (dictSetAt h b k v) := by
  unfold dictSetAt
  split
  · constructor
    · simp only [writeAt, hlen, List.length_set]
      exact hn
    · intro a ha
      simp only [writeAt, objAt]
      exact List.getElem?_set_ne (by omega)
  · exact frame_rfl n h hn

theorem frame_alloc_from {n : Nat} {h0 h : Heap} {o : PyObj}
    (hf : Frame n h0 h) : Frame n h0 (alloc h o).2 :=
  frame_trans hf (frame_alloc n h o hf.1)

theorem frame_optimize_contactH (n : Nat) (h : Heap) (c : PyVal)
    (hn : n ≤ hlen h) : Frame n h (optimize_contactH h c).2 :=
  frame_alloc n h _ hn

theorem frame_optimize_skillsH (n : Nat) (h : Heap) (v : PyVal) (pages : Nat)
    (hn : n ≤ hlen h) : Frame n h (optimize_skillsH h v pages).2 := by
  simp only [optimize_skillsH]
  split
  · exact frame_alloc n h _ hn
  · exact frame_alloc n h _ hn

theorem frame_optimize_experience_oneH (n : Nat) (pages : Nat) (h : Heap)
    (v : PyVal) (hn : n ≤ hlen h) :
    Frame n h (optimize_experience_oneH pages h v).2 := by
  simp only [optimize_experience_oneH]
  repeat' split
  all_goals
    first
      | exact frame_alloc_from (frame_alloc_from (frame_rfl n h hn))
      | exact frame_alloc n h _ hn

theorem frame_optimize_experience_listH (n : Nat) (pages : Nat) (h : Heap)
    (l : List PyVal) (hn : n ≤ hlen h) :
    Frame n h (optimize_experience_listH pages h l).2 := by
  induction l generalizing h with
  | nil => exact frame_rfl n h hn
  | cons e es ih =>
    exact frame_trans (frame_optimize_experience_oneH n pages h e hn)
      (ih _ (frame_optimize_experience_oneH n pages h e hn).1)

theorem frame_expList_from {n pages : Nat} {h0 h : Heap} {l : List PyVal}
    (hf : Frame n h0 h) :
    Frame n h0 (optimize_experience_listH pages h l).2 :=
  frame_trans hf (frame_optimize_experience_listH n pages h l hf.1)

theorem frame_optimize_experienceH (n : Nat) (h : Heap) (v : PyVal)
    (pages : Nat) (hn : n ≤ hlen h) :
    Frame n h (optimize_experienceH h v pages).2 := by
  simp only [optimize_experienceH]
  repeat' split
  all_goals
    first
      | exact frame_alloc n h _ hn
      | exact frame_alloc_from (frame_expList_from (frame_rfl n h hn))

theorem frame_optimize_projects_oneH (n : Nat) (pages : Nat) (h : Heap)
    (v : PyVal) (hn : n ≤ hlen h) :
    Frame n h (optimize_projects_oneH pages h v).2 := by
  unfold optimize_projects_oneH
  have f1 := frame_alloc n h
    (.list ((listVal h (dgetD (dictVal h v) "technologies" .vnone)).take 5)) hn
  have f2 := frame_trans f1 (frame_alloc n _
    (.list ((listVal h (dgetD (dictVal h v) "highlights" .vnone)).take
      (if pages = 1 then 2 else 3))) f1.1)
  exact frame_trans f2 (frame_alloc n _ _ f2.1)

theorem frame_optimize_projects_listH (n : Nat) (pages : Nat) (h : Heap)
    (l : List PyVal) (hn : n ≤ hlen h) :
    Frame n h (optimize_projects_listH pages h l).2 := by
  induction l generalizing h with
  | nil => exact frame_rfl n h hn
  | cons p ps ih =>
    exact frame_trans (frame_optimize_projects_oneH n pages h p hn)
      (ih _ (frame_optimize_projects_oneH n pages h p hn).1)

theorem frame_projList_from {n pages : Nat} {h0 h : Heap} {l : List PyVal}
    (hf : Frame n h0 h) :
    Frame n h0 (optimize_projects_listH pages h l).2 :=
  frame_trans hf (frame_optimize_projects_listH n pages h l hf.1)

theorem frame_optimize_projectsH (n : Nat) (h : Heap) (v : PyVal)
    (pages : Nat) (hn : n ≤ hlen h) :
    Frame n h (optimize_projectsH h v pages).2 := by
  simp only [optimize_projectsH]
  repeat' split
  all_goals
    first
      | exact frame_alloc n h _ hn
      | exact frame_alloc_from (frame_projList_from (frame_rfl n h hn))

theorem frame_optimize_education_oneH (n : Nat) (pages : Nat) (h : Heap)
    (v : PyVal) (hn : n ≤ hlen h) :
    Frame n h (optimize_education_oneH pages h v).2 := by
  simp only [optimize_education_oneH]
  repeat' split
  all_goals
    first
      | exact frame_alloc_from (frame_alloc_from (frame_rfl n h hn))
      | exact frame_alloc n h _ hn

theorem frame_optimize_education_listH (n : Nat) (pages : Nat) (h : Heap)
    (l : List PyVal) (hn : n ≤ hlen h) :
    Frame n h (optimize_education_listH pages h l).2 := by
  induction l generalizing h with
  | nil => exact frame_rfl n h hn
  | cons e es ih =>
    exact frame_trans (frame_optimize_education_oneH n pages h e hn)
      (ih _ (frame_optimize_education_oneH n pages h e hn).1)

theorem frame_eduList_from {n pages : Nat} {h0 h : Heap} {l : List PyVal}
    (hf : Frame n h0 h) :
    Frame n h0 (optimize_education_listH pages h l).2 :=
  frame_trans hf (frame_optimize_education_listH n pages h l hf.1)

theorem frame_optimize_educationH (n : Nat) (h : Heap) (v : PyVal)
    (pages : Nat) (hn : n ≤ hlen h) :
    Frame n h (optimize_educationH h v pages).2 := by
  simp only [optimize_educationH]
  repeat' split
  all_goals
    first
      | exact frame_alloc n h _ hn
      | exact frame_alloc_from (frame_eduList_from (frame_rfl n h hn))

theorem frame_optimize_languagesH (n : Nat) (h : Heap) (v : PyVal)
    (hn : n ≤ hlen h) : Frame n h (optimize_languagesH h v).2 := by
  simp only [optimize_languagesH]
  split
  · exact frame_alloc n h _ hn
  · exact frame_alloc n h _ hn

theorem frame_aggressiveH (n : Nat) (h : Heap) (content pages : Nat)
    (hn : n ≤ hlen h) (hc : n ≤ content) :
    Frame n h (aggressive_optimizeH h content pages) := by
  unfold aggressive_optimizeH
  have step : ∀ (h0 hx : Heap) (k : String) (L : List PyVal) (C : Prop)
      [Decidable C], Frame n h0 hx →
      Frame n h0 (if C then
        (let r := alloc hx (.list L); dictSetAt r.2 content k (.vref r.1))
        else hx) := by
    intro h0 hx k L C _ hf
    split
    · exact frame_trans hf (frame_trans (frame_alloc n hx _ hf.1)
        (frame_dictSetAt n _ content k _ (frame_alloc n hx _ hf.1).1 hc))
    · exact hf
  have stepSet : ∀ (h0 hx : Heap) (k : String) (v : PyVal) (C : Prop)
      [Decidable C], Frame n h0 hx →
      Frame n h0 (if C then dictSetAt hx content k v else hx) := by
    intro h0 hx k v C _ hf
    split
    · exact frame_trans hf (frame_dictSetAt n hx content k v hf.1 hc)
    · exact hf
  exact step _ _ _ _ _ (stepSet _ _ _ _ _ (step _ _ _ _ _ (step _ _ _ _ _
    (frame_rfl n h hn))))

end PageOptimizerHeap

namespace PageOptimizerHeap

theorem frame_dictSetAt_from {n : Nat} {h0 h : Heap} (b : Nat) (k : String)
    (v : PyVal) (hf : Frame n h0 h) (hb : n ≤ b) :
    Frame n h0 (dictSetAt h b k v) :=
  frame_trans hf (frame_dictSetAt n h b k v hf.1 hb)

theorem frame_contact_from {n : Nat} {h0 h : Heap} {v : PyVal}
    (hf : Frame n h0 h) : Frame n h0 (optimize_contactH h v).2 :=
  frame_trans hf (frame_optimize_contactH n h v hf.1)

theorem frame_skills_from {n : Nat} {h0 h : Heap} {v : PyVal} {pages : Nat}
    (hf : Frame n h0 h) : Frame n h0 (optimize_skillsH h v pages).2 :=
  frame_trans hf (frame_optimize_skillsH n h v pages hf.1)

theorem frame_experience_from {n : Nat} {h0 h : Heap} {v : PyVal} {pages : Nat}
    (hf : Frame n h0 h) : Frame n h0 (optimize_experienceH h v pages).2 :=
  frame_trans hf (frame_optimize_experienceH n h v pages hf.1)

theorem frame_education_from {n : Nat} {h0 h : Heap} {v : PyVal} {pages : Nat}
    (hf : Frame n h0 h) : Frame n h0 (optimize_educationH h v pages).2 :=
  frame_trans hf (frame_optimize_educationH n h v pages hf.1)

theorem frame_languages_from {n : Nat} {h0 h : Heap} {v : PyVal}
    (hf : Frame n h0 h) : Frame n h0 (optimize_languagesH h v).2 :=
  frame_trans hf (frame_optimize_languagesH n h v hf.1)

theorem frame_rp_from {n : Nat} {h0 h : Heap} {v : PyVal} {pages : Nat}
    {C : Prop} [Decidable C] (hf : Frame n h0 h) :
    Frame n h0 (if C then optimize_projectsH h v pages
      else (let r := alloc h (.list []); (PyVal.vref r.1, r.2))).2 := by
  split
  · exact frame_trans hf (frame_optimize_projectsH n h v pages hf.1)
  · exact frame_alloc_from hf

theorem frame_aggressive_from {n : Nat} {h0 h : Heap} (content pages : Nat)
    (hf : Frame n h0 h) (hc : n ≤ content) :
    Frame n h0 (aggressive_optimizeH h content pages) :=
  frame_trans hf (frame_aggressiveH n h content pages hf.1 hc)

theorem frame_ite_aggr_from {n : Nat} {h0 h : Heap} {content pages : Nat}
    {C : Prop} [Decidable C] (hf : Frame n h0 h) (hc : n ≤ content) :
    Frame n h0 (if C then aggressive_optimizeH h content pages else h) := by
  split
  · exact frame_aggressive_from content pages hf hc
  · exact hf

end PageOptimizerHeap

/-- C9: `optimize_content` returns a reference to a freshly allocated
dictionary (its address is the heap's previous allocation frontier) and
never mutates any object that existed before the call: every pre-existing
address still holds exactly the same object afterwards, whichever branch
— aggressive pass included, since its in-place writes all target the
fresh optimized dict.  Strings are immutable values in the model, so no
string reachable from the caller's draft is affected either. -/
theorem optimize_contentH_frame (h : PageOptimizerHeap.Heap)
    (c : PageOptimizerHeap.PyVal) (tp : Int) (inc : Bool) :
    (PageOptimizerHeap.optimize_contentH h c tp inc).1 =
      .vref (PageOptimizerHeap.hlen h)
    ∧ PageOptimizerHeap.hlen h ≤
        PageOptimizerHeap.hlen (PageOptimizerHeap.optimize_contentH h c tp inc).2
    ∧ ∀ a, a < PageOptimizerHeap.hlen h →
        PageOptimizerHeap.objAt (PageOptimizerHeap.optimize_contentH h c tp inc).2 a =
          PageOptimizerHeap.objAt h a := by
  have hopt : PageOptimizerHeap.hlen h ≤
      (PageOptimizerHeap.alloc h (.dict [])).1 := le_of_eq rfl
  have main : PageOptimizerHeap.Frame (PageOptimizerHeap.hlen h) h
      (PageOptimizerHeap.optimize_contentH h c tp inc).2 := by
    simp only [PageOptimizerHeap.optimize_contentH]
    exact PageOptimizerHeap.frame_ite_aggr_from
      (PageOptimizerHeap.frame_dictSetAt_from _ _ _
        (PageOptimizerHeap.frame_languages_from
          (PageOptimizerHeap.frame_dictSetAt_from _ _ _
            (PageOptimizerHeap.frame_education_from
              (PageOptimizerHeap.frame_dictSetAt_from _ _ _
                (PageOptimizerHeap.frame_rp_from
                  (PageOptimizerHeap.frame_dictSetAt_from _ _ _
                    (PageOptimizerHeap.frame_experience_from
                      (PageOptimizerHeap.frame_dictSetAt_from _ _ _
                        (PageOptimizerHeap.frame_skills_from
                          (PageOptimizerHeap.frame_dictSetAt_from _ _ _
                            (PageOptimizerHeap.frame_dictSetAt_from _ _ _
                              (PageOptimizerHeap.frame_contact_from
                                (PageOptimizerHeap.frame_alloc_from
                                  (PageOptimizerHeap.frame_rfl _ h (le_refl _))))
                              hopt)
                            hopt))
                        hopt))
                    hopt))
                hopt))
            hopt))
        hopt)
      hopt
  exact ⟨rfl, main.1, main.2⟩

/-- A concrete two-object heap: the draft content dict at address 0 holds
a summary string and a reference to the skills list at address 1. -/
def exampleHeap : PageOptimizerHeap.Heap :=
  [.dict [("summary", .vstr "hello world"), ("skills", .vref 1)],
   .list [.vstr "python", .vstr "sql"]]

/-- Witness for C9 at a concrete input: after optimizing the draft at
address 0 of `exampleHeap`, the caller's skills list object at address 1
is untouched. -/
theorem optimize_contentH_frame_witness :
    PageOptimizerHeap.objAt
      (PageOptimizerHeap.optimize_contentH exampleHeap (.vref 0) 1 true).2 1 =
    PageOptimizerHeap.objAt exampleHeap 1 :=
  (optimize_contentH_frame exampleHeap (.vref 0) 1 true).2.2 1 (by decide)
